import Mathlib

/-!
Verification of the qry request-management storage layer.

The definitions below are a shallow embedding of
`src/server/storage/database.ts` (the `DatabaseStorage` repository class)
and `src/server/storage.ts` (storage backend selection).  The relational
store is modelled as an in-memory `DB` value; every repository method
becomes a pure function from the store (plus a clock value `now` and, for
methods that perform fallible store calls, a `storeFail` flag injecting a
backing-store error) to a result together with the updated store.
`Except String` models JavaScript exceptions; `Option` models
`undefined`.  Timestamps (`Date` values) are modelled as natural numbers.
-/

/-- A stored user row.  The column set is modelled from the spec (section 3),
since the schema module `@shared/schema` is not among the analysed sources;
`registrationDate` is a clock value. -/
structure User where
  id : Nat
  username : String
  email : String
  password : String
  isAdmin : Bool
  isApproved : Bool
  approvalFeedback : Option String
  registrationDate : Nat
  deriving DecidableEq

/-- One entry of the change list computed for a resubmission:
`{ field, from, to }` in the source, with both values rendered as text. -/
structure DiffEntry where
  field : String
  fromVal : String
  toVal : String
  deriving DecidableEq

/-- A stored case-request row (columns modelled from the spec, section 3;
the tracked scalar payload fields are exactly the ones the diff logic in
`createCaseRequest` reads).  `corrections` is the free-form corrections
list; scalar payload values are modelled as strings. -/
structure CaseRequest where
  id : Nat
  userId : Nat
  sadNumber : String
  sadDate : String
  declarantCompany : String
  declarantName : String
  documentHolder : String
  documentHolderPhone : String
  reason : String
  corrections : List String
  status : String
  adminFeedback : Option String
  isResubmission : Bool
  originalRequestId : Option Nat
  changes : Option (List DiffEntry)
  hiddenBy : List Nat
  isArchived : Bool
  createdAt : Nat
  updatedAt : Nat
  receivedAt : Option Nat
  completedAt : Option Nat
  deriving DecidableEq

/-- A stored extension-request row.  Columns modelled from the spec
(section 3); the domain payload is abstracted to a single `reason` field,
since no analysed code reads extension payload fields. -/
structure ExtensionRequest where
  id : Nat
  userId : Nat
  reason : String
  status : String
  adminFeedback : Option String
  hiddenBy : List Nat
  isArchived : Bool
  createdAt : Nat
  updatedAt : Nat
  receivedAt : Option Nat
  completedAt : Option Nat
  deriving DecidableEq

/-- The relational store: the three logical tables. -/
structure DB where
  users : List User
  caseRequests : List CaseRequest
  extensionRequests : List ExtensionRequest
  deriving DecidableEq

def emptyDB : DB := { users := [], caseRequests := [], extensionRequests := [] }

/-- The error message used to model a backing-store failure. -/
def storeFailureMessage : String := "store failure"

/-- The `validTransitions` lookup map of `updateCaseRequest`
(database.ts lines 228-234).  `none` models an absent key of the
`Record<string, string[]>`. -/
def caseValidTransitions : String → Option (List String)
  | "submitted" => some ["pending", "rejected"]
  | "pending" => some ["complete", "rejected"]
  | "rejected" => some []
  | "complete" => some []
  | "resubmitted" => some ["pending", "rejected"]
  | _ => none

/-- The `validTransitions` lookup map of `updateExtensionRequest`
(database.ts lines 359-364); it has no `resubmitted` row. -/
def extensionValidTransitions : String → Option (List String)
  | "submitted" => some ["pending", "rejected"]
  | "pending" => some ["complete", "rejected"]
  | "rejected" => some []
  | "complete" => some []
  | _ => none

/-- `validTransitions[currentStatus]?.includes(status)` for case requests:
an unrecognized current status yields `undefined`, hence `false`. -/
def caseTransitionAllowed (currentStatus status : String) : Bool :=
  match caseValidTransitions currentStatus with
  | some allowed => allowed.contains status
  | none => false

/-- `validTransitions[currentStatus]?.includes(status)` for extension requests. -/
def extensionTransitionAllowed (currentStatus status : String) : Bool :=
  match extensionValidTransitions currentStatus with
  | some allowed => allowed.contains status
  | none => false

/-- `updateCaseRequest(id, status, feedback?)` (database.ts lines 212-267).
Looks up the row; a missing row raises a not-found error; a transition not
allowed by the table raises the invalid-transition error before any write;
otherwise the row is updated: `status` and `updatedAt` always,
`adminFeedback` only when feedback was supplied (drizzle omits `undefined`
values from the SET clause), `completedAt` only on a transition to
`complete`, `receivedAt` only on a transition to `pending`.  A
backing-store failure (`storeFail`) is re-thrown by the surrounding
try/catch. -/
def updateCaseRequest (storeFail : Bool) (db : DB) (now id : Nat) (status : String)
    (feedback : Option String) : Except String CaseRequest × DB :=
  if storeFail then (.error storeFailureMessage, db) else
  match db.caseRequests.find? (fun r => r.id == id) with
  | none => (.error ("Request with ID " ++ toString id ++ " not found"), db)
  | some existing =>
    if caseTransitionAllowed existing.status status then
      let updated : CaseRequest := { existing with
        status := status,
        adminFeedback := match feedback with
          | some f => some f
          | none => existing.adminFeedback,
        updatedAt := now,
        completedAt := if status == "complete" then some now else existing.completedAt,
        receivedAt := if status == "pending" then some now else existing.receivedAt }
      (.ok updated,
       { db with caseRequests := db.caseRequests.map (fun r => if r.id == id then updated else r) })
    else
      (.error ("Invalid status transition from " ++ existing.status ++ " to " ++ status), db)

/-- `updateExtensionRequest(id, status, feedback?)` (database.ts lines
343 to 397); identical to the case-request version except for its
transition table. -/
def updateExtensionRequest (storeFail : Bool) (db : DB) (now id : Nat) (status : String)
    (feedback : Option String) : Except String ExtensionRequest × DB :=
  if storeFail then (.error storeFailureMessage, db) else
  match db.extensionRequests.find? (fun r => r.id == id) with
  | none => (.error ("Request with ID " ++ toString id ++ " not found"), db)
  | some existing =>
    if extensionTransitionAllowed existing.status status then
      let updated : ExtensionRequest := { existing with
        status := status,
        adminFeedback := match feedback with
          | some f => some f
          | none => existing.adminFeedback,
        updatedAt := now,
        completedAt := if status == "complete" then some now else existing.completedAt,
        receivedAt := if status == "pending" then some now else existing.receivedAt }
      (.ok updated,
       { db with extensionRequests :=
           db.extensionRequests.map (fun r => if r.id == id then updated else r) })
    else
      (.error ("Invalid status transition from " ++ existing.status ++ " to " ++ status), db)

/-- The names in the `fieldsToCompare` array of `createCaseRequest`
(database.ts lines 144-147). -/
inductive CaseField
  | sadNumber
  | sadDate
  | declarantCompany
  | declarantName
  | documentHolder
  | documentHolderPhone
  | reason
  deriving DecidableEq

def fieldName : CaseField → String
  | .sadNumber => "sadNumber"
  | .sadDate => "sadDate"
  | .declarantCompany => "declarantCompany"
  | .declarantName => "declarantName"
  | .documentHolder => "documentHolder"
  | .documentHolderPhone => "documentHolderPhone"
  | .reason => "reason"

def fieldsToCompare : List CaseField :=
  [.sadNumber, .sadDate, .declarantCompany, .declarantName,
   .documentHolder, .documentHolderPhone, .reason]

/-- The payload of `createCaseRequest` (`InsertCaseRequest`): the tracked
scalar fields plus the corrections list. -/
structure InsertCaseRequest where
  sadNumber : String
  sadDate : String
  declarantCompany : String
  declarantName : String
  documentHolder : String
  documentHolderPhone : String
  reason : String
  corrections : List String
  deriving DecidableEq

/-- Dynamic field access `original[field]` on a stored row. -/
def CaseRequest.fieldVal (r : CaseRequest) : CaseField → String
  | .sadNumber => r.sadNumber
  | .sadDate => r.sadDate
  | .declarantCompany => r.declarantCompany
  | .declarantName => r.declarantName
  | .documentHolder => r.documentHolder
  | .documentHolderPhone => r.documentHolderPhone
  | .reason => r.reason

/-- Dynamic field access `(request as any)[field]` on the payload. -/
def InsertCaseRequest.fieldVal (r : InsertCaseRequest) : CaseField → String
  | .sadNumber => r.sadNumber
  | .sadDate => r.sadDate
  | .declarantCompany => r.declarantCompany
  | .declarantName => r.declarantName
  | .documentHolder => r.documentHolder
  | .documentHolderPhone => r.documentHolderPhone
  | .reason => r.reason

/-- `JSON.stringify` of the corrections list, used only for comparison and
for rendering the corrections diff entry. -/
def serializeCorrections (l : List String) : String :=
  "[" ++ String.intercalate "," (l.map (fun s => "\x22" ++ s ++ "\x22")) ++ "]"

/-- The change-list computation inlined in `createCaseRequest`
(database.ts lines 144-164): one `{field, from, to}` entry per tracked
field whose value differs (values rendered as text), then one entry for
the corrections list when its serialized form differs. -/
def computeDiff (original : CaseRequest) (request : InsertCaseRequest) : List DiffEntry :=
  let fieldChanges : List DiffEntry :=
    (fieldsToCompare.filter (fun f => original.fieldVal f != request.fieldVal f)).map
      (fun f => { field := fieldName f,
                  fromVal := original.fieldVal f,
                  toVal := request.fieldVal f })
  if serializeCorrections original.corrections != serializeCorrections request.corrections then
    fieldChanges ++
      [{ field := "corrections",
         fromVal := serializeCorrections original.corrections,
         toVal := serializeCorrections request.corrections }]
  else
    fieldChanges

/-- The payload a stored row would resubmit unchanged (projection of the
row onto the `InsertCaseRequest` fields). -/
def CaseRequest.toInsert (r : CaseRequest) : InsertCaseRequest :=
  { sadNumber := r.sadNumber, sadDate := r.sadDate,
    declarantCompany := r.declarantCompany, declarantName := r.declarantName,
    documentHolder := r.documentHolder, documentHolderPhone := r.documentHolderPhone,
    reason := r.reason, corrections := r.corrections }

/-- `createCaseRequest(request)` (database.ts lines 130-183).  When an
`originalRequestId` is supplied, the original row is looked up; a missing
original leaves the change list empty (creation still succeeds).  The
inserted row gets `isResubmission = !!originalRequestId`, `changes` only
when the list is non-empty (else the column stays null), status
`resubmitted` or `submitted`, and `createdAt = updatedAt = now`.  `newId`
models the id assigned by the store. -/
def createCaseRequest (db : DB) (now newId userId : Nat) (request : InsertCaseRequest)
    (originalRequestId : Option Nat) : CaseRequest × DB :=
  let changes : List DiffEntry :=
    match originalRequestId with
    | some oid =>
      match db.caseRequests.find? (fun r => r.id == oid) with
      | some original => computeDiff original request
      | none => []
    | none => []
  let caseRequest : CaseRequest :=
    { id := newId,
      userId := userId,
      sadNumber := request.sadNumber,
      sadDate := request.sadDate,
      declarantCompany := request.declarantCompany,
      declarantName := request.declarantName,
      documentHolder := request.documentHolder,
      documentHolderPhone := request.documentHolderPhone,
      reason := request.reason,
      corrections := request.corrections,
      status := if originalRequestId.isSome then "resubmitted" else "submitted",
      adminFeedback := none,
      isResubmission := originalRequestId.isSome,
      originalRequestId := originalRequestId,
      changes := if changes.length > 0 then some changes else none,
      hiddenBy := [],
      isArchived := false,
      createdAt := now,
      updatedAt := now,
      receivedAt := none,
      completedAt := none }
  (caseRequest, { db with caseRequests := db.caseRequests ++ [caseRequest] })

/-- The payload of `createExtensionRequest` (`InsertExtensionRequest`);
its domain fields are abstracted to `reason` (none are read by the
analysed code). -/
structure InsertExtensionRequest where
  reason : String
  deriving DecidableEq

/-- `createExtensionRequest(request)` (database.ts lines 312-323): the
row is inserted exactly as supplied — including the caller-provided
`status` — with only `createdAt = updatedAt = now` added.  There is no
`originalRequestId` parameter and no diff computation. -/
def createExtensionRequest (db : DB) (now newId userId : Nat)
    (request : InsertExtensionRequest) (status : String) : ExtensionRequest × DB :=
  let extensionRequest : ExtensionRequest :=
    { id := newId,
      userId := userId,
      reason := request.reason,
      status := status,
      adminFeedback := none,
      hiddenBy := [],
      isArchived := false,
      createdAt := now,
      updatedAt := now,
      receivedAt := none,
      completedAt := none }
  (extensionRequest, { db with extensionRequests := db.extensionRequests ++ [extensionRequest] })

/-- The payload of `createUser`.  The optional `isAdmin` / `isApproved`
fields model values a registrant might smuggle into the payload object;
the object spread in `createUser` overrides both regardless. -/
structure InsertUser where
  username : String
  email : String
  password : String
  isAdmin : Option Bool
  isApproved : Option Bool
  deriving DecidableEq

/-- `createUser(insertUser)` (database.ts lines 52-65): reads all user
rows, treats an empty table as "first user", and inserts the payload with
`isAdmin` and `isApproved` both set to that flag (the spread
`{...insertUser, isAdmin: isFirstUser, isApproved: isFirstUser}` discards
any payload-supplied values) and `registrationDate = now`. -/
def createUser (db : DB) (now newId : Nat) (insertUser : InsertUser) : User × DB :=
  let isFirstUser : Bool := db.users.length == 0
  let user : User :=
    { id := newId,
      username := insertUser.username,
      email := insertUser.email,
      password := insertUser.password,
      isAdmin := isFirstUser,
      isApproved := isFirstUser,
      approvalFeedback := none,
      registrationDate := now }
  (user, { db with users := db.users ++ [user] })

/-- Insert an element into a list sorted in descending key order. -/
def insertDescBy {α : Type} (key : α → Nat) (x : α) : List α → List α
  | [] => [x]
  | y :: ys => if key y < key x then x :: y :: ys else y :: insertDescBy key x ys

/-- Sort a list in descending key order (models SQL `ORDER BY key DESC`). -/
def sortDescBy {α : Type} (key : α → Nat) : List α → List α
  | [] => []
  | x :: xs => insertDescBy key x (sortDescBy key xs)

/-- A drizzle-orm select builder over one table: it holds at most one
where clause and at most one (descending) order key. -/
structure Query (α : Type) where
  rows : List α
  whereFilter : Option (α → Bool)
  orderKeyDesc : Option (α → Nat)

/-- `db.select().from(table)`. -/
def selectFrom {α : Type} (rows : List α) : Query α :=
  { rows := rows, whereFilter := none, orderKeyDesc := none }

/-- drizzle-orm's `.where(cond)`: the builder stores the condition in a
single `config.where` slot, so a second call REPLACES the first condition
instead of conjoining with it. -/
def Query.whereClause {α : Type} (q : Query α) (p : α → Bool) : Query α :=
  { q with whereFilter := some p }

/-- `.orderBy(desc(key))`. -/
def Query.orderByDesc {α : Type} (q : Query α) (key : α → Nat) : Query α :=
  { q with orderKeyDesc := some key }

/-- Execute the built query. -/
def Query.run {α : Type} (q : Query α) : List α :=
  let filtered :=
    match q.whereFilter with
    | some p => q.rows.filter p
    | none => q.rows
  match q.orderKeyDesc with
  | some key => sortDescBy key filtered
  | none => filtered

/-- `getCaseRequestsByUser(userId)` (database.ts lines 185-202): chains
`.where(userId = ...)`, `.where(NOT hiddenBy contains userId)`,
`.where(isArchived = false)` — of which only the last survives — orders
by `createdAt` descending, and catches store errors, returning `[]`. -/
def getCaseRequestsByUser (storeFail : Bool) (db : DB) (userId : Nat) :
    Except String (List CaseRequest) :=
  if storeFail then .ok [] else
  .ok (((((selectFrom db.caseRequests).whereClause
            (fun r => r.userId == userId)).whereClause
            (fun r => !(r.hiddenBy.contains userId))).whereClause
            (fun r => !r.isArchived)).orderByDesc
            (fun r => r.createdAt)).run

/-- `getAllCaseRequests()` (database.ts lines 204-210): a single where
clause on `isArchived`, ordered by `createdAt` descending, with NO
try/catch — a store error propagates. -/
def getAllCaseRequests (storeFail : Bool) (db : DB) : Except String (List CaseRequest) :=
  if storeFail then .error storeFailureMessage else
  .ok ((((selectFrom db.caseRequests).whereClause
           (fun r => !r.isArchived)).orderByDesc
           (fun r => r.createdAt)).run)

/-- `getExtensionRequestsByUser(userId)` (database.ts lines 325-333):
same chained where clauses as the case version, but with NO try/catch —
a store error propagates. -/
def getExtensionRequestsByUser (storeFail : Bool) (db : DB) (userId : Nat) :
    Except String (List ExtensionRequest) :=
  if storeFail then .error storeFailureMessage else
  .ok (((((selectFrom db.extensionRequests).whereClause
            (fun r => r.userId == userId)).whereClause
            (fun r => !(r.hiddenBy.contains userId))).whereClause
            (fun r => !r.isArchived)).orderByDesc
            (fun r => r.createdAt)).run

/-- `getAllExtensionRequests()` (database.ts lines 335-341): no
try/catch — a store error propagates. -/
def getAllExtensionRequests (storeFail : Bool) (db : DB) :
    Except String (List ExtensionRequest) :=
  if storeFail then .error storeFailureMessage else
  .ok ((((selectFrom db.extensionRequests).whereClause
           (fun r => !r.isArchived)).orderByDesc
           (fun r => r.createdAt)).run)

/-- `getUser(id)` (database.ts lines 22-30): single-row lookup wrapped in
try/catch returning `undefined` on a store error. -/
def getUser (storeFail : Bool) (db : DB) (id : Nat) : Option User :=
  if storeFail then none else db.users.find? (fun u => u.id == id)

/-- `getCaseRequest(id)` (database.ts lines 117-128): try/catch returning
`undefined` on a store error. -/
def getCaseRequest (storeFail : Bool) (db : DB) (id : Nat) : Option CaseRequest :=
  if storeFail then none else db.caseRequests.find? (fun r => r.id == id)

/-- `getExtensionRequest(id)` (database.ts lines 299-310): try/catch
returning `undefined` on a store error. -/
def getExtensionRequest (storeFail : Bool) (db : DB) (id : Nat) : Option ExtensionRequest :=
  if storeFail then none else db.extensionRequests.find? (fun r => r.id == id)

/-- `hideUserCaseRequest(id, userId)` (database.ts lines 269-285): looks
the row up, throws "Request not found" when missing, otherwise appends
`userId` to `hiddenBy` (no duplicate check). -/
def hideUserCaseRequest (db : DB) (id userId : Nat) : Except String Unit × DB :=
  match db.caseRequests.find? (fun r => r.id == id) with
  | none => (.error "Request not found", db)
  | some request =>
    let hiddenBy := request.hiddenBy ++ [userId]
    (.ok (),
     { db with caseRequests :=
         db.caseRequests.map (fun r => if r.id == id then { r with hiddenBy := hiddenBy } else r) })

/-- `archiveCaseRequest(id)` (database.ts lines 287-292): an unconditional
UPDATE with no existence check; a missing id simply matches zero rows. -/
def archiveCaseRequest (db : DB) (id : Nat) : Except String Unit × DB :=
  (.ok (),
   { db with caseRequests :=
       db.caseRequests.map (fun r => if r.id == id then { r with isArchived := true } else r) })

/-- `deleteCaseRequest(id)` (database.ts lines 294-296): an unconditional
DELETE; a missing id matches zero rows. -/
def deleteCaseRequest (db : DB) (id : Nat) : Except String Unit × DB :=
  (.ok (), { db with caseRequests := db.caseRequests.filter (fun r => !(r.id == id)) })

/-- `hideUserExtensionRequest(id, userId)` (database.ts lines 399-415). -/
def hideUserExtensionRequest (db : DB) (id userId : Nat) : Except String Unit × DB :=
  match db.extensionRequests.find? (fun r => r.id == id) with
  | none => (.error "Request not found", db)
  | some request =>
    let hiddenBy := request.hiddenBy ++ [userId]
    (.ok (),
     { db with extensionRequests :=
         db.extensionRequests.map (fun r => if r.id == id then { r with hiddenBy := hiddenBy } else r) })

/-- `archiveExtensionRequest(id)` (database.ts lines 417-422). -/
def archiveExtensionRequest (db : DB) (id : Nat) : Except String Unit × DB :=
  (.ok (),
   { db with extensionRequests :=
       db.extensionRequests.map (fun r => if r.id == id then { r with isArchived := true } else r) })

/-- `deleteExtensionRequest(id)` (database.ts lines 424-426). -/
def deleteExtensionRequest (db : DB) (id : Nat) : Except String Unit × DB :=
  (.ok (), { db with extensionRequests := db.extensionRequests.filter (fun r => !(r.id == id)) })

/-- The environment read by the storage backend selection (storage.ts):
the two string flags, the optional base64 credential blob, and a flag
modelling whether decoding/writing the credential file succeeds. -/
structure StorageEnv where
  useLocalStorage : Option String
  fallbackToLocal : Option String
  googleCredentialsJson : Option String
  credentialWriteOk : Bool
  deriving DecidableEq

/-- Which blob-storage implementation ends up serving requests. -/
inductive StorageImpl
  | cloudStore
  | localStore
  deriving DecidableEq

/-- `setupGoogleCloudCredentials()` (storage.ts lines 21-38): throws when
the environment variable is absent or when decoding/writing the
credential file fails; otherwise returns the temp-file path. -/
def setupGoogleCloudCredentials (env : StorageEnv) : Except String String :=
  match env.googleCredentialsJson with
  | none => .error "GOOGLE_APPLICATION_CREDENTIALS_JSON environment variable is not set"
  | some _ =>
    if env.credentialWriteOk then .ok "google-credentials.json"
    else .error "Error setting up Google Cloud credentials"

/-- Modelled from the spec: the `GoogleCloudStorage` class
(src/server/storage/google-cloud.ts, not among the analysed sources)
"must internally fall back to local storage when its underlying client
cannot be constructed" — i.e. it serves from the cloud exactly when cloud
credentials were materialized, and from the local filesystem otherwise. -/
def mkGoogleCloudStorage (credentialsMaterialized : Bool) : StorageImpl :=
  if credentialsMaterialized then .cloudStore else .localStore

/-- `initializeStorage()` (storage.ts lines 83-100).  The second
component records whether credential materialization was attempted. -/
def initializeStorage (env : StorageEnv) : Except String StorageImpl × Bool :=
  if env.useLocalStorage == some "true" then
    (.ok (mkGoogleCloudStorage false), false)
  else
    match setupGoogleCloudCredentials env with
    | .ok _ => (.ok (mkGoogleCloudStorage true), true)
    | .error e =>
      if env.fallbackToLocal == some "true" then
        (.ok (mkGoogleCloudStorage false), true)
      else
        (.error e, true)

/-- A concrete stored case request used as a test fixture. -/
def baseCase : CaseRequest :=
  { id := 1, userId := 1,
    sadNumber := "SAD-1", sadDate := "2024-01-01",
    declarantCompany := "ACME", declarantName := "Ann",
    documentHolder := "Bob", documentHolderPhone := "555",
    reason := "x", corrections := ["c1"],
    status := "submitted", adminFeedback := none,
    isResubmission := false, originalRequestId := none, changes := none,
    hiddenBy := [], isArchived := false,
    createdAt := 0, updatedAt := 0, receivedAt := none, completedAt := none }

/-- A concrete stored extension request used as a test fixture. -/
def baseExt : ExtensionRequest :=
  { id := 1, userId := 1, reason := "x",
    status := "pending", adminFeedback := none,
    hiddenBy := [], isArchived := false,
    createdAt := 0, updatedAt := 0, receivedAt := none, completedAt := none }

/-- A store whose only case request and only extension request are both in
the terminal status `complete`. -/
def terminalDB : DB :=
  { users := [],
    caseRequests := [{ baseCase with status := "complete" }],
    extensionRequests := [{ baseExt with status := "complete" }] }

/-- A store with a freshly submitted case request and a pending extension
request. -/
def freshDB : DB :=
  { users := [],
    caseRequests := [baseCase],
    extensionRequests := [baseExt] }

/-- A case request owned by user 2 and hidden by nobody. -/
def otherUsersRequest : CaseRequest := { baseCase with id := 1, userId := 2, createdAt := 0 }

/-- A case request owned by user 1 that user 1 has hidden. -/
def selfHiddenRequest : CaseRequest :=
  { baseCase with id := 2, userId := 1, hiddenBy := [1], createdAt := 5 }

/-- A store holding the two requests above, both non-archived. -/
def visibilityDB : DB :=
  { users := [],
    caseRequests := [otherUsersRequest, selfHiddenRequest],
    extensionRequests := [] }

/-- A concrete case-request payload fixture. -/
def wInsertCase : InsertCaseRequest :=
  { sadNumber := "SAD-9", sadDate := "2024-02-02",
    declarantCompany := "ACME", declarantName := "Ann",
    documentHolder := "Bob", documentHolderPhone := "555",
    reason := "y", corrections := ["c1"] }

/-- A concrete extension-request payload fixture. -/
def wInsertExt : InsertExtensionRequest := { reason := "more time" }

/-- A registration payload that tries to self-grant admin and approval. -/
def wInsertUserElevated : InsertUser :=
  { username := "eve", email := "e@x", password := "pw",
    isAdmin := some true, isApproved := some true }

/-- The same registration payload without the smuggled flags. -/
def wInsertUserPlain : InsertUser :=
  { username := "eve", email := "e@x", password := "pw",
    isAdmin := none, isApproved := none }

/-- A store already holding one user. -/
def oneUserDB : DB :=
  { users := [{ id := 1, username := "root", email := "r@x", password := "pw",
                isAdmin := true, isApproved := true, approvalFeedback := none,
                registrationDate := 0 }],
    caseRequests := [], extensionRequests := [] }

/-- `getUserByUsername(username)` (database.ts lines 32-40): lookup
wrapped in try/catch returning `undefined` on a store error. -/
def getUserByUsername (storeFail : Bool) (db : DB) (username : String) : Option User :=
  if storeFail then none else db.users.find? (fun u => u.username == username)

/-- `getUserByEmail(email)` (database.ts lines 42-50): lookup wrapped in
try/catch returning `undefined` on a store error. -/
def getUserByEmail (storeFail : Bool) (db : DB) (email : String) : Option User :=
  if storeFail then none else db.users.find? (fun u => u.email == email)

/-- `createUser` with the backing-store error channel: the method
(database.ts lines 52-65) has no try/catch around its awaited select and
insert, so a store rejection propagates to the caller unchanged; on a
healthy store it behaves as `createUser` above. -/
def createUserFallible (storeFail : Bool) (db : DB) (now newId : Nat)
    (insertUser : InsertUser) : Except String (User × DB) :=
  if storeFail then .error storeFailureMessage
  else .ok (createUser db now newId insertUser)

/-- `createCaseRequest` with the backing-store error channel: the method
(database.ts lines 130-183) has no try/catch, so a store rejection
propagates unchanged. -/
def createCaseRequestFallible (storeFail : Bool) (db : DB) (now newId userId : Nat)
    (request : InsertCaseRequest) (originalRequestId : Option Nat) :
    Except String (CaseRequest × DB) :=
  if storeFail then .error storeFailureMessage
  else .ok (createCaseRequest db now newId userId request originalRequestId)

/-- `createExtensionRequest` with the backing-store error channel: the
method (database.ts lines 312-323) has no try/catch, so a store rejection
propagates unchanged. -/
def createExtensionRequestFallible (storeFail : Bool) (db : DB) (now newId userId : Nat)
    (request : InsertExtensionRequest) (status : String) :
    Except String (ExtensionRequest × DB) :=
  if storeFail then .error storeFailureMessage
  else .ok (createExtensionRequest db now newId userId request status)

/-- `hideUserCaseRequest` with the backing-store error channel: no
try/catch in the method (database.ts lines 269-285). -/
def hideUserCaseRequestFallible (storeFail : Bool) (db : DB) (id userId : Nat) :
    Except String Unit × DB :=
  if storeFail then (.error storeFailureMessage, db) else hideUserCaseRequest db id userId

/-- `archiveCaseRequest` with the backing-store error channel: no
try/catch in the method (database.ts lines 287-292). -/
def archiveCaseRequestFallible (storeFail : Bool) (db : DB) (id : Nat) :
    Except String Unit × DB :=
  if storeFail then (.error storeFailureMessage, db) else archiveCaseRequest db id

/-- `deleteCaseRequest` with the backing-store error channel: no
try/catch in the method (database.ts lines 294-296). -/
def deleteCaseRequestFallible (storeFail : Bool) (db : DB) (id : Nat) :
    Except String Unit × DB :=
  if storeFail then (.error storeFailureMessage, db) else deleteCaseRequest db id

/-- `hideUserExtensionRequest` with the backing-store error channel: no
try/catch in the method (database.ts lines 399-415). -/
def hideUserExtensionRequestFallible (storeFail : Bool) (db : DB) (id userId : Nat) :
    Except String Unit × DB :=
  if storeFail then (.error storeFailureMessage, db) else hideUserExtensionRequest db id userId

/-- `archiveExtensionRequest` with the backing-store error channel: no
try/catch in the method (database.ts lines 417-422). -/
def archiveExtensionRequestFallible (storeFail : Bool) (db : DB) (id : Nat) :
    Except String Unit × DB :=
  if storeFail then (.error storeFailureMessage, db) else archiveExtensionRequest db id

/-- `deleteExtensionRequest` with the backing-store error channel: no
try/catch in the method (database.ts lines 424-426). -/
def deleteExtensionRequestFallible (storeFail : Bool) (db : DB) (id : Nat) :
    Except String Unit × DB :=
  if storeFail then (.error storeFailureMessage, db) else deleteExtensionRequest db id

/-! ## Claim theorems -/

/-- C1: for both entity kinds, any (currentStatus, requestedStatus) pair
not listed in the transition table — self-transitions, transitions out of
the terminal statuses, and transitions from an unrecognized current
status alike — makes `updateStatus` on an existing record fail with an
"Invalid status transition" error naming both statuses, and leaves the
store unmodified. -/
theorem c1_invalid_transition_denied (db : DB) (now id : Nat) (status : String)
    (feedback : Option String) :
    (∀ r : CaseRequest, db.caseRequests.find? (fun q => q.id == id) = some r →
      caseTransitionAllowed r.status status = false →
      updateCaseRequest false db now id status feedback =
        (.error ("Invalid status transition from " ++ r.status ++ " to " ++ status), db)) ∧
    (∀ r : ExtensionRequest, db.extensionRequests.find? (fun q => q.id == id) = some r →
      extensionTransitionAllowed r.status status = false →
      updateExtensionRequest false db now id status feedback =
        (.error ("Invalid status transition from " ++ r.status ++ " to " ++ status), db)) := by
  constructor
  · intro r hr hden
    simp [updateCaseRequest, hr, hden]
  · intro r hr hden
    simp [updateExtensionRequest, hr, hden]

/-- Witness for C1: in a store whose only requests are `complete`
(terminal), requesting a transition to `pending` fails for both kinds and
the store is untouched. -/
theorem c1_invalid_transition_denied_witness :
    updateCaseRequest false terminalDB 5 1 "pending" none =
      (.error ("Invalid status transition from " ++ "complete" ++ " to " ++ "pending"),
       terminalDB) ∧
    updateExtensionRequest false terminalDB 5 1 "pending" none =
      (.error ("Invalid status transition from " ++ "complete" ++ " to " ++ "pending"),
       terminalDB) :=
  ⟨(c1_invalid_transition_denied terminalDB 5 1 "pending" none).1
      { baseCase with status := "complete" } (by decide) (by decide),
   (c1_invalid_transition_denied terminalDB 5 1 "pending" none).2
      { baseExt with status := "complete" } (by decide) (by decide)⟩

/-- C3: on every allowed transition of either kind, `updatedAt` is
stamped with the current time; a transition to `pending` stamps
`receivedAt` and leaves a previously-null `completedAt` null; a
transition to `complete` stamps `completedAt`. -/
theorem c3_timestamps (db : DB) (now id : Nat) (status : String) (feedback : Option String) :
    (∀ r : CaseRequest, db.caseRequests.find? (fun q => q.id == id) = some r →
      caseTransitionAllowed r.status status = true →
      (updateCaseRequest false db now id status feedback).1.map (fun u => u.updatedAt) =
        .ok now ∧
      (status = "pending" →
        (updateCaseRequest false db now id status feedback).1.map (fun u => u.receivedAt) =
          .ok (some now) ∧
        (r.completedAt = none →
          (updateCaseRequest false db now id status feedback).1.map (fun u => u.completedAt) =
            .ok none)) ∧
      (status = "complete" →
        (updateCaseRequest false db now id status feedback).1.map (fun u => u.completedAt) =
          .ok (some now))) ∧
    (∀ r : ExtensionRequest, db.extensionRequests.find? (fun q => q.id == id) = some r →
      extensionTransitionAllowed r.status status = true →
      (updateExtensionRequest false db now id status feedback).1.map (fun u => u.updatedAt) =
        .ok now ∧
      (status = "pending" →
        (updateExtensionRequest false db now id status feedback).1.map (fun u => u.receivedAt) =
          .ok (some now) ∧
        (r.completedAt = none →
          (updateExtensionRequest false db now id status feedback).1.map
              (fun u => u.completedAt) = .ok none)) ∧
      (status = "complete" →
        (updateExtensionRequest false db now id status feedback).1.map (fun u => u.completedAt) =
          .ok (some now))) := by
  constructor
  · intro r hr hall
    refine ⟨?_, ?_, ?_⟩
    · simp [updateCaseRequest, Except.map, hr, hall]
    · intro hp
      subst hp
      constructor
      · simp [updateCaseRequest, Except.map, hr, hall]
      · intro hc
        simp [updateCaseRequest, Except.map, hr, hall, hc]
    · intro hc
      subst hc
      simp [updateCaseRequest, Except.map, hr, hall]
  · intro r hr hall
    refine ⟨?_, ?_, ?_⟩
    · simp [updateExtensionRequest, Except.map, hr, hall]
    · intro hp
      subst hp
      constructor
      · simp [updateExtensionRequest, Except.map, hr, hall]
      · intro hc
        simp [updateExtensionRequest, Except.map, hr, hall, hc]
    · intro hc
      subst hc
      simp [updateExtensionRequest, Except.map, hr, hall]

/-- Witness for C3: in the fresh store, moving the submitted case request
to `pending` stamps `updatedAt` and `receivedAt` and keeps `completedAt`
null, and moving the pending extension request to `complete` stamps
`completedAt`. -/
theorem c3_timestamps_witness :
    (updateCaseRequest false freshDB 9 1 "pending" none).1.map (fun u => u.updatedAt) =
      .ok 9 ∧
    (updateCaseRequest false freshDB 9 1 "pending" none).1.map (fun u => u.receivedAt) =
      .ok (some 9) ∧
    (updateCaseRequest false freshDB 9 1 "pending" none).1.map (fun u => u.completedAt) =
      .ok none ∧
    (updateExtensionRequest false freshDB 9 1 "complete" none).1.map (fun u => u.completedAt) =
      .ok (some 9) := by
  have hcase := (c3_timestamps freshDB 9 1 "pending" none).1 baseCase (by decide) (by decide)
  have hext := (c3_timestamps freshDB 9 1 "complete" none).2 baseExt (by decide) (by decide)
  exact ⟨hcase.1, (hcase.2.1 rfl).1, (hcase.2.1 rfl).2 (by decide), hext.2.2 rfl⟩

/-- Counterexample to C2: `createExtensionRequest` has no
`originalRequestId` input at all and stores the caller-supplied status
verbatim, so a creation without an original request can yield a record
whose status is not "submitted". -/
theorem c2_create_status_counterexample :
    (createExtensionRequest emptyDB 3 7 2 wInsertExt "pending").1.status = "pending" ∧
    ¬ (createExtensionRequest emptyDB 3 7 2 wInsertExt "pending").1.status = "submitted" := by
  constructor
  · rfl
  · decide

/-- C2 as amended: for CASE requests, a present `originalRequestId`
yields status "resubmitted" and `isResubmission = true` (a missing
original is tolerated: creation succeeds and the diff is simply skipped,
leaving `changes` null), and an absent one yields status "submitted";
`createdAt = updatedAt = now` in both cases.  For EXTENSION requests the
repository stores the caller-supplied status verbatim (there is no
`originalRequestId` input), again with `createdAt = updatedAt = now`. -/
theorem c2_create_status_amended (db : DB) (now newId userId oid : Nat)
    (request : InsertCaseRequest) (erequest : InsertExtensionRequest) (status : String) :
    ((createCaseRequest db now newId userId request none).1.status = "submitted" ∧
     (createCaseRequest db now newId userId request none).1.isResubmission = false ∧
     (createCaseRequest db now newId userId request none).1.createdAt = now ∧
     (createCaseRequest db now newId userId request none).1.updatedAt = now) ∧
    ((createCaseRequest db now newId userId request (some oid)).1.status = "resubmitted" ∧
     (createCaseRequest db now newId userId request (some oid)).1.isResubmission = true ∧
     (createCaseRequest db now newId userId request (some oid)).1.createdAt = now ∧
     (createCaseRequest db now newId userId request (some oid)).1.updatedAt = now) ∧
    (db.caseRequests.find? (fun r => r.id == oid) = none →
      (createCaseRequest db now newId userId request (some oid)).1.changes = none) ∧
    ((createExtensionRequest db now newId userId erequest status).1.status = status ∧
     (createExtensionRequest db now newId userId erequest status).1.createdAt = now ∧
     (createExtensionRequest db now newId userId erequest status).1.updatedAt = now) := by
  refine ⟨⟨rfl, rfl, rfl, rfl⟩, ⟨?_, ?_, ?_, ?_⟩, ?_, rfl, rfl, rfl⟩
  · simp [createCaseRequest]
  · simp [createCaseRequest]
  · simp [createCaseRequest]
  · simp [createCaseRequest]
  · intro hmiss
    simp [createCaseRequest, hmiss]

/-- Witness for C2 (amended): a resubmission whose referenced original
(id 42) is absent from the store still yields a "resubmitted" record with
null `changes` and both timestamps stamped. -/
theorem c2_create_status_amended_witness :
    (createCaseRequest emptyDB 4 2 1 wInsertCase (some 42)).1.status = "resubmitted" ∧
    (createCaseRequest emptyDB 4 2 1 wInsertCase (some 42)).1.changes = none ∧
    (createCaseRequest emptyDB 4 2 1 wInsertCase none).1.status = "submitted" ∧
    (createExtensionRequest emptyDB 4 2 1 wInsertExt "resubmitted").1.status = "resubmitted" := by
  have h := c2_create_status_amended emptyDB 4 2 1 42 wInsertCase wInsertExt "resubmitted"
  exact ⟨h.2.1.1, h.2.2.1 (by decide), h.1.1, h.2.2.2.1⟩

/-- The payload projection of a stored row reads back the same tracked
field values (helper for the diff-computer claim). -/
theorem toInsert_fieldVal (r : CaseRequest) (f : CaseField) :
    (CaseRequest.toInsert r).fieldVal f = r.fieldVal f := by
  cases f <;> rfl

/-- C4: for every original record and resubmission payload the computed
diff holds exactly one `{field, from, to}` entry (values as text) per
tracked scalar field whose value differs, plus one entry for the
corrections list exactly when its serialized form differs, and nothing
else (the length equation); `computeDiff(a, a)` is empty for any record
`a`, and the record created from an unchanged payload stores a null
`changes` column rather than an empty list. -/
theorem c4_diff_exactness (db : DB) (now newId userId : Nat) (o : CaseRequest)
    (r : InsertCaseRequest)
    (hfind : db.caseRequests.find? (fun q => q.id == o.id) = some o) :
    (∀ f ∈ fieldsToCompare,
      (computeDiff o r).countP (fun e => e.field == fieldName f) =
        if o.fieldVal f ≠ r.fieldVal f then 1 else 0) ∧
    ((computeDiff o r).countP (fun e => e.field == "corrections") =
      if serializeCorrections o.corrections ≠ serializeCorrections r.corrections then 1 else 0) ∧
    (∀ f ∈ fieldsToCompare, o.fieldVal f ≠ r.fieldVal f →
      ({ field := fieldName f, fromVal := o.fieldVal f, toVal := r.fieldVal f } : DiffEntry) ∈
        computeDiff o r) ∧
    ((computeDiff o r).length =
      fieldsToCompare.countP (fun f => o.fieldVal f != r.fieldVal f) +
        (if serializeCorrections o.corrections ≠ serializeCorrections r.corrections
         then 1 else 0)) ∧
    computeDiff o (CaseRequest.toInsert o) = [] ∧
    (createCaseRequest db now newId userId (CaseRequest.toInsert o) (some o.id)).1.changes =
      none := by
  have hself : computeDiff o (CaseRequest.toInsert o) = [] := by
    have hc : (CaseRequest.toInsert o).corrections = o.corrections := rfl
    simp [computeDiff, toInsert_fieldVal, hc, bne_self_eq_false, List.filter_false]
  refine ⟨?_, ?_, ?_, ?_, hself, ?_⟩
  · intro f hf
    fin_cases hf <;>
      · simp only [computeDiff]
        split <;>
          simp [fieldsToCompare, fieldName, CaseRequest.fieldVal, InsertCaseRequest.fieldVal,
            List.countP_append, List.countP_map, List.countP_filter, List.countP_cons,
            List.countP_nil, Function.comp, bne_iff_ne]
  · simp only [computeDiff]
    split
    · rename_i h
      rw [bne_iff_ne] at h
      simp [fieldsToCompare, fieldName, List.countP_append, List.countP_map, List.countP_filter,
        List.countP_cons, List.countP_nil, Function.comp, h]
    · rename_i h
      simp only [bne_iff_ne, not_not, Decidable.not_not] at h
      simp [fieldsToCompare, fieldName, List.countP_map, List.countP_filter, List.countP_cons,
        List.countP_nil, Function.comp, h]
  · intro f hf hd
    have hmem : ({ field := fieldName f, fromVal := o.fieldVal f, toVal := r.fieldVal f } :
        DiffEntry) ∈
        (fieldsToCompare.filter (fun g => o.fieldVal g != r.fieldVal g)).map
          (fun g => { field := fieldName g, fromVal := o.fieldVal g, toVal := r.fieldVal g }) :=
      List.mem_map.mpr ⟨f, List.mem_filter.mpr ⟨hf, bne_iff_ne.mpr hd⟩, rfl⟩
    simp only [computeDiff]
    split
    · exact List.mem_append_left _ hmem
    · exact hmem
  · simp only [computeDiff]
    split
    · rename_i h
      rw [bne_iff_ne] at h
      simp [List.countP_eq_length_filter, h]
    · rename_i h
      simp only [bne_iff_ne, Decidable.not_not] at h
      simp [List.countP_eq_length_filter, h]
  · simp [createCaseRequest, hfind, hself]

/-- Witness for C4: against the fixture store, a payload changing only
`reason` produces exactly one `reason` entry, the identical payload
produces an empty diff, and the identical resubmission's stored `changes`
column is null. -/
theorem c4_diff_exactness_witness :
    (computeDiff baseCase wInsertCase).countP
        (fun e => e.field == fieldName CaseField.reason) = 1 ∧
    computeDiff baseCase (CaseRequest.toInsert baseCase) = [] ∧
    (createCaseRequest freshDB 7 3 1 (CaseRequest.toInsert baseCase) (some 1)).1.changes =
      none := by
  have h := c4_diff_exactness freshDB 7 3 1 baseCase wInsertCase (by decide)
  refine ⟨?_, h.2.2.2.2.1, h.2.2.2.2.2⟩
  rw [h.1 CaseField.reason (by decide)]
  decide

/-- C5: the created user's `isAdmin` and `isApproved` flags equal the
"zero existing user rows" check, so both are true iff the user table was
empty at creation time and both are false whenever at least one user row
exists. -/
theorem c5_first_user_flags (db : DB) (now newId : Nat) (payload : InsertUser) :
    (createUser db now newId payload).1.isAdmin = (db.users.length == 0) ∧
    (createUser db now newId payload).1.isApproved = (db.users.length == 0) ∧
    (((createUser db now newId payload).1.isAdmin = true ∧
      (createUser db now newId payload).1.isApproved = true) ↔ db.users = []) := by
  refine ⟨rfl, rfl, ?_⟩
  simp [createUser, List.length_eq_zero]

/-- C10: the created user's flags are independent of any `isAdmin` /
`isApproved` values smuggled into the registration payload: two payloads
equal outside those fields yield identical flags against the same store
state, and the flags are determined by the emptiness check alone. -/
theorem c10_no_self_elevation (db : DB) (now newId : Nat) (p1 p2 : InsertUser)
    (_husername : p1.username = p2.username) (_hemail : p1.email = p2.email)
    (_hpassword : p1.password = p2.password) :
    (createUser db now newId p1).1.isAdmin = (createUser db now newId p2).1.isAdmin ∧
    (createUser db now newId p1).1.isApproved = (createUser db now newId p2).1.isApproved ∧
    (createUser db now newId p1).1.isAdmin = (db.users.length == 0) ∧
    (createUser db now newId p1).1.isApproved = (db.users.length == 0) := by
  exact ⟨rfl, rfl, rfl, rfl⟩

/-- Witness for C10: against a store with one existing user, a payload
claiming `isAdmin = isApproved = true` yields the same (false) flags as
the plain payload. -/
theorem c10_no_self_elevation_witness :
    (createUser oneUserDB 3 2 wInsertUserElevated).1.isAdmin =
      (createUser oneUserDB 3 2 wInsertUserPlain).1.isAdmin ∧
    (createUser oneUserDB 3 2 wInsertUserElevated).1.isApproved =
      (createUser oneUserDB 3 2 wInsertUserPlain).1.isApproved ∧
    (createUser oneUserDB 3 2 wInsertUserElevated).1.isAdmin = false ∧
    (createUser oneUserDB 3 2 wInsertUserElevated).1.isApproved = false := by
  have h := c10_no_self_elevation oneUserDB 3 2 wInsertUserElevated wInsertUserPlain rfl rfl rfl
  exact ⟨h.1, h.2.1, h.2.2.1.trans (by decide), h.2.2.2.trans (by decide)⟩

/-- C6 (code bug): because each chained `.where()` call REPLACES the
builder's single where slot, only the final `isArchived` filter survives
in `getCaseRequestsByUser`.  Evaluated at the failing store, the query
for user 1 returns a request owned by user 2 and a request user 1 has
hidden — both of which the spec says must be excluded (only the
descending-`createdAt` ordering is honoured). -/
theorem c6_get_by_user_code_bug :
    getCaseRequestsByUser false visibilityDB 1 = .ok [selfHiddenRequest, otherUsersRequest] ∧
    otherUsersRequest.userId = 2 ∧
    selfHiddenRequest.hiddenBy = [1] ∧
    selfHiddenRequest.createdAt = 5 ∧ otherUsersRequest.createdAt = 0 := by
  exact ⟨rfl, rfl, rfl, rfl, rfl⟩

/-- Counterexample to C7: `archiveCaseRequest` and `deleteCaseRequest`
perform an unconditional UPDATE/DELETE with no existence check, so on an
empty store — where id 99 certainly does not exist — they succeed instead
of failing with a not-found error. -/
theorem c7_not_found_counterexample :
    emptyDB.caseRequests.find? (fun r => r.id == 99) = none ∧
    (archiveCaseRequest emptyDB 99).1 = .ok () ∧
    (deleteCaseRequest emptyDB 99).1 = .ok () ∧
    (archiveExtensionRequest emptyDB 99).1 = .ok () ∧
    (deleteExtensionRequest emptyDB 99).1 = .ok () := by
  exact ⟨rfl, rfl, rfl, rfl, rfl⟩

/-- C7 as amended: on a missing record id, `updateStatus` and `hide` fail
with an explicit not-found error, while `archive` and `delete` succeed
silently as no-ops (they touch zero rows), and single-record lookups
(`getUser`, `getCaseRequest`, `getExtensionRequest`) return an absent
result rather than an error. -/
theorem c7_not_found_amended (db : DB) (now id userId : Nat) (status : String)
    (feedback : Option String)
    (hcase : db.caseRequests.find? (fun r => r.id == id) = none)
    (hext : db.extensionRequests.find? (fun r => r.id == id) = none)
    (huser : db.users.find? (fun u => u.id == id) = none) :
    (updateCaseRequest false db now id status feedback).1 =
      .error ("Request with ID " ++ toString id ++ " not found") ∧
    (hideUserCaseRequest db id userId).1 = .error "Request not found" ∧
    (archiveCaseRequest db id).1 = .ok () ∧
    (deleteCaseRequest db id).1 = .ok () ∧
    (updateExtensionRequest false db now id status feedback).1 =
      .error ("Request with ID " ++ toString id ++ " not found") ∧
    (hideUserExtensionRequest db id userId).1 = .error "Request not found" ∧
    (archiveExtensionRequest db id).1 = .ok () ∧
    (deleteExtensionRequest db id).1 = .ok () ∧
    getUser false db id = none ∧
    getCaseRequest false db id = none ∧
    getExtensionRequest false db id = none := by
  refine ⟨?_, ?_, rfl, rfl, ?_, ?_, rfl, rfl, ?_, ?_, ?_⟩
  · simp [updateCaseRequest, hcase]
  · simp [hideUserCaseRequest, hcase]
  · simp [updateExtensionRequest, hext]
  · simp [hideUserExtensionRequest, hext]
  · simp [getUser, huser]
  · simp [getCaseRequest, hcase]
  · simp [getExtensionRequest, hext]

/-- Witness for C7 (amended): concrete evaluation on the empty store. -/
theorem c7_not_found_amended_witness :
    (updateCaseRequest false emptyDB 0 99 "pending" none).1 =
      .error ("Request with ID " ++ toString 99 ++ " not found") ∧
    (hideUserCaseRequest emptyDB 99 1).1 = .error "Request not found" ∧
    getUser false emptyDB 99 = none :=
  have h := c7_not_found_amended emptyDB 0 99 1 "pending" none rfl rfl rfl
  ⟨h.1, h.2.1, h.2.2.2.2.2.2.2.2.1⟩

/-- Counterexample to C8: `getAllCaseRequests` has no try/catch, so a
backing-store error during this read path propagates to the caller
instead of yielding an empty list. -/
theorem c8_read_swallow_counterexample :
    getAllCaseRequests true emptyDB = .error storeFailureMessage ∧
    ¬ getAllCaseRequests true emptyDB = .ok [] := by
  constructor
  · rfl
  · intro h
    exact Except.noConfusion h

/-- C8 as amended: the read paths wrapped in try/catch (`getUser`,
`getUserByUsername`, `getUserByEmail`, `getCaseRequest`,
`getExtensionRequest`, `getCaseRequestsByUser`) swallow a backing-store
error into an absent/empty result, but `getAllCaseRequests`,
`getExtensionRequestsByUser` and `getAllExtensionRequests` have no such
wrapper and propagate it, and every embedded write path propagates it as
an explicit error: the status updates (whose catch blocks re-throw) and
the catch-free `createUser`, `createCaseRequest`,
`createExtensionRequest`, hide, archive and delete of both kinds. -/
theorem c8_read_swallow_amended (db : DB) (id userId now newId : Nat)
    (username email status : String) (feedback : Option String) (payload : InsertUser)
    (request : InsertCaseRequest) (erequest : InsertExtensionRequest)
    (originalRequestId : Option Nat) :
    getUser true db id = none ∧
    getUserByUsername true db username = none ∧
    getUserByEmail true db email = none ∧
    getCaseRequest true db id = none ∧
    getExtensionRequest true db id = none ∧
    getCaseRequestsByUser true db userId = .ok [] ∧
    getAllCaseRequests true db = .error storeFailureMessage ∧
    getExtensionRequestsByUser true db userId = .error storeFailureMessage ∧
    getAllExtensionRequests true db = .error storeFailureMessage ∧
    (updateCaseRequest true db now id status feedback).1 = .error storeFailureMessage ∧
    (updateExtensionRequest true db now id status feedback).1 = .error storeFailureMessage ∧
    createUserFallible true db now newId payload = .error storeFailureMessage ∧
    createCaseRequestFallible true db now newId userId request originalRequestId =
      .error storeFailureMessage ∧
    createExtensionRequestFallible true db now newId userId erequest status =
      .error storeFailureMessage ∧
    (hideUserCaseRequestFallible true db id userId).1 = .error storeFailureMessage ∧
    (archiveCaseRequestFallible true db id).1 = .error storeFailureMessage ∧
    (deleteCaseRequestFallible true db id).1 = .error storeFailureMessage ∧
    (hideUserExtensionRequestFallible true db id userId).1 = .error storeFailureMessage ∧
    (archiveExtensionRequestFallible true db id).1 = .error storeFailureMessage ∧
    (deleteExtensionRequestFallible true db id).1 = .error storeFailureMessage := by
  exact ⟨rfl, rfl, rfl, rfl, rfl, rfl, rfl, rfl, rfl, rfl, rfl, rfl, rfl, rfl, rfl, rfl, rfl,
    rfl, rfl, rfl⟩

/-- C9: with the local-only flag set, initialization never attempts
credential materialization and yields the local implementation; with the
flag unset and credential materialization failing, it yields the local
implementation exactly when the fallback flag is set and otherwise
propagates the failure (the boolean component records whether credential
setup was attempted). -/
theorem c9_storage_init (env : StorageEnv) :
    (env.useLocalStorage = some "true" →
      initializeStorage env = (.ok .localStore, false)) ∧
    (env.useLocalStorage ≠ some "true" →
      ∀ e, setupGoogleCloudCredentials env = .error e →
        (env.fallbackToLocal = some "true" →
          initializeStorage env = (.ok .localStore, true)) ∧
        (env.fallbackToLocal ≠ some "true" →
          initializeStorage env = (.error e, true))) := by
  constructor
  · intro hlocal
    simp [initializeStorage, hlocal, mkGoogleCloudStorage]
  · intro hnotlocal e hsetup
    constructor
    · intro hfb
      simp [initializeStorage, hnotlocal, hsetup, hfb, mkGoogleCloudStorage]
    · intro hnofb
      simp [initializeStorage, hnotlocal, hsetup, hnofb, mkGoogleCloudStorage]

/-- Witness for C9: concrete environments exercising the local-only
branch, the fallback branch, and the fatal branch. -/
theorem c9_storage_init_witness :
    initializeStorage
        { useLocalStorage := some "true", fallbackToLocal := none,
          googleCredentialsJson := none, credentialWriteOk := true } =
      (.ok .localStore, false) ∧
    initializeStorage
        { useLocalStorage := none, fallbackToLocal := some "true",
          googleCredentialsJson := none, credentialWriteOk := true } =
      (.ok .localStore, true) ∧
    initializeStorage
        { useLocalStorage := none, fallbackToLocal := none,
          googleCredentialsJson := none, credentialWriteOk := true } =
      (.error "GOOGLE_APPLICATION_CREDENTIALS_JSON environment variable is not set", true) := by
  have h1 := c9_storage_init
    { useLocalStorage := some "true", fallbackToLocal := none,
      googleCredentialsJson := none, credentialWriteOk := true }
  have h2 := c9_storage_init
    { useLocalStorage := none, fallbackToLocal := some "true",
      googleCredentialsJson := none, credentialWriteOk := true }
  have h3 := c9_storage_init
    { useLocalStorage := none, fallbackToLocal := none,
      googleCredentialsJson := none, credentialWriteOk := true }
  refine ⟨h1.1 rfl, ?_, ?_⟩
  · exact (h2.2 (by simp)
      "GOOGLE_APPLICATION_CREDENTIALS_JSON environment variable is not set" rfl).1 rfl
  · exact (h3.2 (by simp)
      "GOOGLE_APPLICATION_CREDENTIALS_JSON environment variable is not set" rfl).2 (by simp)
